import Mathlib

/-!
Verification of the chunkhound.github.io static documentation site sources.

Two artifacts are embedded:
* the `LatestChanges` React component (a presentational highlight panel),
  embedded as a pure function from the optional style-class string to a
  renderable tree (`Node`);
* the Astro/Starlight site configuration object (`astro.config.mjs`),
  embedded as a plain record `buildConfig`.
-/

/-- Renderable tree produced by a React component: an element with a
tag name, an attribute list (attribute name, value) and children, or a
text node. JSX whitespace around text is collapsed/trimmed. -/
inductive Node where
  | elem (tag : String) (attrs : List (String × String)) (children : List Node)
  | text (s : String)
deriving Repr

/-- Look up an attribute value on a node (text nodes have none). -/
def Node.attr (n : Node) (key : String) : Option String :=
  match n with
  | .elem _ attrs _ => attrs.lookup key
  | .text _ => none

/-- The `className` attribute of a node, or `""` when absent. -/
def Node.rootClass (n : Node) : String :=
  (n.attr "className").getD ""

mutual

/-- All elements in the tree (in document order) whose `className`
attribute is exactly `cls`. -/
def findByClass (cls : String) : Node → List Node
  | .text _ => []
  | .elem tag attrs children =>
    (if attrs.lookup "className" = some cls
      then [Node.elem tag attrs children] else [])
      ++ findByClassList cls children

def findByClassList (cls : String) : List Node → List Node
  | [] => []
  | n :: ns => findByClass cls n ++ findByClassList cls ns

end

mutual

/-- All elements in the tree (in document order) with tag name `tag`. -/
def findByTag (tg : String) : Node → List Node
  | .text _ => []
  | .elem tag attrs children =>
    (if tag = tg then [Node.elem tag attrs children] else [])
      ++ findByTagList tg children

def findByTagList (tg : String) : List Node → List Node
  | [] => []
  | n :: ns => findByTag tg n ++ findByTagList tg ns

end

mutual

/-- Concatenated text content of a node. -/
def Node.textContent : Node → String
  | .text s => s
  | .elem _ _ children => textContentList children

def textContentList : List Node → String
  | [] => ""
  | n :: ns => n.textContent ++ textContentList ns

end

/-- One `li.highlight-item` bullet of a change card. -/
def highlightItem (s : String) : Node :=
  .elem "li" [("className", "highlight-item")] [.text s]

/-- The fixed children of the `LatestChanges` root `div`, transcribed
node for node from the JSX body of the component: the header, the grid
of three change cards, and the trailing view-all link. -/
def latestChangesChildren : List Node :=
  [ .elem "div" [("className", "latest-changes-header")]
      [ .elem "h2" [] [.text "Latest Updates"],
        .elem "p" []
          [.text "Stay up to date with ChunkHound's latest features and improvements."] ],
    .elem "div" [("className", "latest-changes-grid")]
      [ .elem "div" [("className", "change-card")]
          [ .elem "div" [("className", "change-card-header")]
              [ .elem "h3" [] [.text "Scalable Code Analysis"],
                .elem "span" [("className", "rocket-icon")] [.text "🔍"] ],
            .elem "div" [("className", "change-card-content")]
              [ .elem "div" [("className", "change-summary")]
                  [.text "Map-reduce synthesis breaks complex queries into parallel subtasks, preventing context collapse on multi-million LOC codebases."],
                .elem "ul" [("className", "change-highlights")]
                  [ highlightItem "Numbered citations [1][2][3] replace verbose file.py:123 references",
                    highlightItem "New chunkhound research CLI command for direct code analysis",
                    highlightItem "Automatic query expansion with deduplication casts wider semantic nets" ] ] ],
        .elem "div" [("className", "change-card")]
          [ .elem "div" [("className", "change-card-header")]
              [ .elem "h3" [] [.text "Indexing Performance"],
                .elem "span" [("className", "rocket-icon")] [.text "⚡"] ],
            .elem "div" [("className", "change-card-content")]
              [ .elem "div" [("className", "change-summary")]
                  [.text "10-100x faster indexing via native git bindings, parallel directory discovery, and ProcessPoolExecutor for CPU-bound parsing."],
                .elem "ul" [("className", "change-highlights")]
                  [ highlightItem "RapidYAML parser handles large k8s manifests 10-100x faster than tree-sitter",
                    highlightItem "7 new AST-aware parsers: Swift, Objective-C, Zig, Haskell, HCL, Vue, PHP (29+ total)",
                    highlightItem "Provider-aware embedding batching optimizes API throughput (OpenAI: 8, VoyageAI: 40)" ] ] ],
        .elem "div" [("className", "change-card")]
          [ .elem "div" [("className", "change-card-header")]
              [ .elem "h3" [] [.text "Production Tooling"],
                .elem "span" [("className", "rocket-icon")] [.text "🛠️"] ],
            .elem "div" [("className", "change-card-content")]
              [ .elem "div" [("className", "change-summary")]
                  [.text "New CLI commands and integrations for production workflows and debugging."],
                .elem "ul" [("className", "change-highlights")]
                  [ highlightItem "simulate (dry-run), diagnose (compare ChunkHound vs git rules), calibrate (auto-tune batch sizes)",
                    highlightItem "TEI reranker format support - two-stage retrieval with cross-encoder, no vendor lock-in",
                    highlightItem "Repo-aware gitignore engine prevents rule leakage between sibling repos" ] ] ] ],
    .elem "div" [("className", "view-all-link")]
      [ .elem "a" [("href", "./changelog"), ("className", "btn-secondary")]
          [.text "View Full Changelog →"] ] ]

/-- The `LatestChanges` component: given the style-class prop, renders
the root `div` whose class is the template string
`latest-changes ${className}`, with the fixed children. -/
def LatestChanges (className : String) : Node :=
  .elem "div" [("className", "latest-changes " ++ className)] latestChangesChildren

/-- Invocation of `LatestChanges` with the `className` prop omitted:
the destructuring default `{ className = "" }` substitutes the empty
string. -/
def LatestChangesNoArg : Node := LatestChanges ""

/-- The change cards of a rendered tree: elements with class
`change-card`, in document order. -/
def cardNodes (t : Node) : List Node := findByClass "change-card" t

/-- Title of a change card: the text of its `h3` heading(s). -/
def cardTitle (card : Node) : String :=
  textContentList (findByTag "h3" card)

/-- Icon glyph of a change card: the text of its `span.rocket-icon`. -/
def cardIcon (card : Node) : String :=
  textContentList (findByClass "rocket-icon" card)

/-- Summary of a change card: the text of its `div.change-summary`. -/
def cardSummary (card : Node) : String :=
  textContentList (findByClass "change-summary" card)

/-- Highlight strings of a change card: the texts of its
`li.highlight-item` bullets, in order. -/
def cardHighlights (card : Node) : List String :=
  (findByClass "highlight-item" card).map Node.textContent

/-- A card is well-formed when its title, icon and summary are
non-empty and its highlight list is non-empty. -/
def cardOk (card : Node) : Bool :=
  (cardTitle card != "") && (cardIcon card != "")
    && (cardSummary card != "") && !(cardHighlights card).isEmpty

/-- Split a character list into maximal space-free runs, dropping
empty runs: the token list of an HTML `class` attribute value (the
DOMTokenList view of the attribute). `cur` accumulates the current
run in reverse. -/
def tokensAux (cur : List Char) : List Char → List (List Char)
  | [] => if cur = [] then [] else [cur.reverse]
  | ch :: rest =>
    if ch = ' ' then
      if cur = [] then tokensAux [] rest
      else cur.reverse :: tokensAux [] rest
    else tokensAux (ch :: cur) rest

/-- The class tokens of a `class`/`className` attribute value. -/
def classTokens (s : String) : List String :=
  (tokensAux [] s.data).map String.mk

/-! ## Site configuration (`astro.config.mjs`) -/

/-- The `logo` option of the Starlight integration. -/
structure Logo where
  light : String
  dark : String
  replacesTitle : Bool
deriving Repr, DecidableEq

/-- One entry of the `social` option. -/
structure SocialEntry where
  icon : String
  label : String
  href : String
deriving Repr, DecidableEq

/-- One entry of the `head` option: an HTML tag name and its
attribute mapping (`attrs`), as an association list. -/
structure HeadTag where
  tag : String
  attrs : List (String × String)
deriving Repr, DecidableEq

/-- One entry of the `sidebar` option: a label together with either a
local content `slug` or an external `link` (each entry in the source
carries exactly one of the two keys; absence is `none`). -/
structure SidebarEntry where
  label : String
  slug : Option String
  link : Option String
deriving Repr, DecidableEq

/-- The options object passed to the `starlight(...)` integration. -/
structure StarlightConfig where
  title : String
  description : String
  logo : Logo
  favicon : String
  customCss : List String
  expressiveCodeThemes : List String
  social : List SocialEntry
  head : List HeadTag
  sidebar : List SidebarEntry
deriving Repr

/-- The record passed to `defineConfig` in `astro.config.mjs`. The
`integrations` array holds `react()` (no data) and the Starlight
integration, whose options are the `starlight` field here. -/
structure SiteConfig where
  site : String
  base : String
  redirects : List (String × String)
  starlight : StarlightConfig
deriving Repr

/-- Construction of the site configuration object, transcribed field
for field from `astro.config.mjs`. -/
def buildConfig : SiteConfig :=
  { site := "https://chunkhound.github.io"
    base := "/"
    redirects := [("/code-expert-agent", "/code-research")]
    starlight :=
      { title := "ChunkHound"
        description :=
          "Modern RAG for your codebase - semantic and regex search via MCP"
        logo :=
          { light := "./public/wordmark.svg"
            dark := "./public/wordmark-dark.svg"
            replacesTitle := true }
        favicon := "/favicon.svg"
        customCss := ["./src/styles/colors.css", "./src/styles/changelog.css"]
        expressiveCodeThemes := ["github-light", "github-dark"]
        social :=
          [{ icon := "github", label := "GitHub"
             href := "https://github.com/chunkhound/chunkhound" }]
        head :=
          [ { tag := "meta"
              attrs := [("property", "og:image"),
                        ("content", "https://chunkhound.github.io/og-image.png")] },
            { tag := "meta"
              attrs := [("property", "og:image:width"), ("content", "1200")] },
            { tag := "meta"
              attrs := [("property", "og:image:height"), ("content", "630")] },
            { tag := "meta"
              attrs := [("property", "og:type"), ("content", "website")] },
            { tag := "meta"
              attrs := [("name", "twitter:card"),
                        ("content", "summary_large_image")] },
            { tag := "meta"
              attrs := [("name", "twitter:image"),
                        ("content", "https://chunkhound.github.io/og-image.png")] } ]
        sidebar :=
          [ { label := "Quickstart", slug := some "quickstart", link := none },
            { label := "How-To Guides", slug := some "how-to", link := none },
            { label := "Configuration", slug := some "configuration", link := none },
            { label := "Code Research", slug := some "code-research", link := none },
            { label := "Benchmark", slug := some "benchmark", link := none },
            { label := "Under the Hood", slug := some "under-the-hood", link := none },
            { label := "Origin Story", slug := some "origin-story", link := none },
            { label := "Contributing", slug := some "contributing", link := none },
            { label := "Changelog", slug := none, link := some "/changelog" } ] } }

/-- A head-tag entry is well-formed when its tag is `meta` and its
attribute list holds exactly two keys: exactly one of the identifying
keys `property` / `name`, and a `content` key with non-empty value. -/
def headTagOk (t : HeadTag) : Bool :=
  (t.tag == "meta") && (t.attrs.length == 2)
    && ((t.attrs.lookup "property").isSome != (t.attrs.lookup "name").isSome)
    && (match t.attrs.lookup "content" with
        | some v => v != ""
        | none => false)

/-- A sidebar entry carries exactly one of a local content slug or an
external link. -/
def sidebarEntryOk (e : SidebarEntry) : Bool :=
  (e.slug.isSome && e.link.isNone) || (e.slug.isNone && e.link.isSome)

/-! ## Helper lemmas -/

/-- The root class `latest-changes ${className}` never equals a string
whose character at index 14 is not a space (in particular any shorter
string), whatever the style-class input is. -/
theorem root_class_ne (c t : String) (h : t.data[14]? ≠ some ' ') :
    "latest-changes " ++ c ≠ t := by
  intro heq
  apply h
  have hd : ("latest-changes ").data ++ c.data = t.data := by
    rw [← String.data_append]; exact congrArg String.data heq
  rw [← hd, List.getElem?_append, if_pos (by decide)]
  decide

/-- A class query that cannot match the root (its 15th character is
not a space) reduces to a query over the fixed children. -/
theorem findByClass_latestChanges (cls c : String) (h : cls.data[14]? ≠ some ' ') :
    findByClass cls (LatestChanges c) = findByClassList cls latestChangesChildren := by
  have hne : ("latest-changes " ++ c) ≠ cls := root_class_ne c cls h
  simp [LatestChanges, findByClass, List.lookup, hne]

/-- A tag query for anything but `div` reduces to a query over the
fixed children. -/
theorem findByTag_latestChanges (tg c : String) (h : tg ≠ "div") :
    findByTag tg (LatestChanges c) = findByTagList tg latestChangesChildren := by
  simp [LatestChanges, findByTag, Ne.symm h]

/-- On a space-free suffix, the tokenizer yields the pending
accumulator extended by that suffix as a single token. -/
theorem tokensAux_nospace : ∀ (l cur : List Char), (∀ ch ∈ l, ch ≠ ' ') →
    (cur ≠ [] ∨ l ≠ []) → tokensAux cur l = [cur.reverse ++ l] := by
  intro l
  induction l with
  | nil =>
    intro cur _ hne
    rcases hne with h | h
    · simp [tokensAux, h]
    · exact absurd rfl h
  | cons ch rest ih =>
    intro cur hsp _
    have hch : ch ≠ ' ' := hsp ch (List.mem_cons_self ch rest)
    have hrest : ∀ x ∈ rest, x ≠ ' ' := fun x hx => hsp x (List.mem_cons_of_mem ch hx)
    simp only [tokensAux, if_neg hch]
    rw [ih (ch :: cur) hrest (Or.inl (by simp))]
    simp

/-- Tokenizing the concrete base-class prefix emits the token
`latest-changes` and continues on the remainder. -/
theorem tokensAux_step (cd : List Char) :
    tokensAux [] ("latest-changes ".data ++ cd) = "latest-changes".data :: tokensAux [] cd := rfl

theorem string_mk_data (c : String) : String.mk c.data = c := rfl

theorem data_ne_nil {c : String} (h : c ≠ "") : c.data ≠ [] := by
  intro hd
  apply h
  cases c
  simp_all

/-- The class tokens of the rendered root class, for a non-empty
space-free style-class input. -/
theorem classTokens_append (c : String) (h : c ≠ "") (hsp : ∀ ch ∈ c.data, ch ≠ ' ') :
    classTokens ("latest-changes " ++ c) = ["latest-changes", c] := by
  unfold classTokens
  rw [String.data_append, tokensAux_step,
    tokensAux_nospace c.data [] hsp (Or.inr (data_ne_nil h))]
  simp [string_mk_data]

/-! ## Claims -/

/-- C1: for every style-class input, the highlight-panel render
function returns a tree with one header carrying the fixed title and
subtitle, exactly 3 change cards in the same fixed order, each with
non-empty title, icon glyph, summary and a non-empty highlight list,
and a single trailing link element. -/
theorem latestChanges_fixed_structure (c : String) :
    (findByClass "latest-changes-header" (LatestChanges c)).length = 1 ∧
    (findByTag "h2" (LatestChanges c)).map Node.textContent = ["Latest Updates"] ∧
    (findByTag "p" (LatestChanges c)).map Node.textContent =
      ["Stay up to date with ChunkHound's latest features and improvements."] ∧
    (cardNodes (LatestChanges c)).map cardTitle =
      ["Scalable Code Analysis", "Indexing Performance", "Production Tooling"] ∧
    (cardNodes (LatestChanges c)).all cardOk = true ∧
    (findByClass "view-all-link" (LatestChanges c)).length = 1 ∧
    (findByTag "a" (LatestChanges c)).length = 1 := by
  refine ⟨?_, ?_, ?_, ?_, ?_, ?_, ?_⟩
  · rw [findByClass_latestChanges _ _ (by decide)]; decide
  · rw [findByTag_latestChanges _ _ (by decide)]; decide
  · rw [findByTag_latestChanges _ _ (by decide)]; decide
  · unfold cardNodes; rw [findByClass_latestChanges _ _ (by decide)]; decide
  · unfold cardNodes; rw [findByClass_latestChanges _ _ (by decide)]; decide
  · rw [findByClass_latestChanges _ _ (by decide)]; decide
  · rw [findByTag_latestChanges _ _ (by decide)]; decide

/-- C2: rendering is pure: two invocations at the same style-class
input are structurally identical, and the output is exactly the root
element determined by the style parameter together with the fixed
embedded children (no other dependence, no side effects in the
embedding). -/
theorem latestChanges_pure (c : String) :
    LatestChanges c = LatestChanges c ∧
    LatestChanges c =
      Node.elem "div" [("className", "latest-changes " ++ c)] latestChangesChildren :=
  ⟨rfl, rfl⟩

/-- C3: invoking the component with the className prop omitted yields
a root whose class attribute is exactly `latest-changes ` (with the
trailing space from the empty default) and a tree with exactly 3
change-card elements. -/
theorem latestChanges_noArg :
    LatestChangesNoArg.attr "className" = some "latest-changes " ∧
    (cardNodes LatestChangesNoArg).length = 3 := by
  constructor
  · decide
  · decide

/-- C4 counterexample: the non-empty style-class input `a b` does not
appear verbatim as a class token of the rendered root element (it is
split at the space into two tokens). -/
theorem latestChanges_classToken_cex :
    "a b" ≠ "" ∧ "a b" ∉ classTokens (LatestChanges "a b").rootClass := by
  constructor
  · decide
  · decide

/-- C4 (amended): every non-empty style-class input containing no
space appears verbatim as an additional class token on the root
element; with the prop omitted, the root class token list is exactly
the base class alone. -/
theorem latestChanges_classToken (c : String) :
    (c ≠ "" → (∀ ch ∈ c.data, ch ≠ ' ') →
      c ∈ classTokens (LatestChanges c).rootClass) ∧
    classTokens LatestChangesNoArg.rootClass = ["latest-changes"] := by
  constructor
  · intro h hsp
    have hroot : (LatestChanges c).rootClass = "latest-changes " ++ c := rfl
    rw [hroot, classTokens_append c h hsp]
    simp
  · decide

/-- C4 witness: the amended property at the concrete input `dark`. -/
theorem latestChanges_classToken_witness :
    "dark" ∈ classTokens (LatestChanges "dark").rootClass ∧
    classTokens LatestChangesNoArg.rootClass = ["latest-changes"] :=
  ⟨(latestChanges_classToken "dark").1 (by decide) (by decide),
   (latestChanges_classToken "dark").2⟩

/-- C5: the site configuration's redirects mapping holds exactly the
single pair from `/code-expert-agent` to `/code-research`. -/
theorem buildConfig_redirects :
    buildConfig.redirects = [("/code-expert-agent", "/code-research")] := rfl

/-- C6: no redirect entry maps a path to itself, and no redirect
source also occurs as a redirect target (no chains). -/
theorem buildConfig_redirects_acyclic :
    ∀ p ∈ buildConfig.redirects,
      p.1 ≠ p.2 ∧ p.1 ∉ buildConfig.redirects.map Prod.snd := by
  decide

/-- C6 witness: the property at the single concrete redirect entry. -/
theorem buildConfig_redirects_acyclic_witness :
    ("/code-expert-agent", "/code-research") ∈ buildConfig.redirects ∧
    ("/code-expert-agent" ≠ "/code-research" ∧
      "/code-expert-agent" ∉ buildConfig.redirects.map Prod.snd) :=
  ⟨by decide,
   buildConfig_redirects_acyclic ("/code-expert-agent", "/code-research") (by decide)⟩

/-- C7: sidebar labels are pairwise distinct, and every sidebar entry
carries exactly one of a local content slug or an external link. -/
theorem buildConfig_sidebar_wf :
    (buildConfig.starlight.sidebar.map SidebarEntry.label).Nodup ∧
    buildConfig.starlight.sidebar.all sidebarEntryOk = true := by
  constructor
  · decide
  · decide

/-- C8: each of the 3 rendered change cards has a highlight list of
exactly 3 items, for every style-class input. -/
theorem latestChanges_highlights_three (c : String) :
    (cardNodes (LatestChanges c)).map (fun cd => (cardHighlights cd).length) =
      [3, 3, 3] := by
  unfold cardNodes
  rw [findByClass_latestChanges _ _ (by decide)]
  decide

/-- C9: the head-tag list has exactly 6 entries, each a `meta` tag
whose attributes are exactly one identifying key (`property` or
`name`) plus a `content` key with non-empty value. -/
theorem buildConfig_head_wf :
    buildConfig.starlight.head.length = 6 ∧
    buildConfig.starlight.head.all headTagOk = true := by
  constructor
  · decide
  · decide

/-- C10: for every style-class input, the rendered tree holds exactly
one anchor element, and its `href` is exactly `./changelog`. -/
theorem latestChanges_anchor (c : String) :
    (findByTag "a" (LatestChanges c)).map (fun n => n.attr "href") =
      [some "./changelog"] := by
  rw [findByTag_latestChanges _ _ (by decide)]
  decide
